import Mathlib

/-!
Verification of the questdb-sql-parser specification against the source
under src/. The available source is the autocomplete token classification
module (src/unnamed/part_000) and the review-proof test suite
(src/tests/review-proofs.test.ts), which documents the behaviour of the
missing implementation files (lexer.ts, visitor.ts, toSql.ts) with exact
code quotes and runtime assertions. Each definition below is translated
either from part_000 directly, or from the code fragments quoted and
asserted in the review tests; definitions for code absent from src/ and
not pinned by a test are modelled from the spec and say so.
-/

-- =============================================================================
-- Token classification tables, from src/unnamed/part_000
-- =============================================================================

/-- Token types that represent actual identifiers (IDENTIFIER_TOKENS in
src/unnamed/part_000). -/
def IDENTIFIER_TOKENS : List String :=
  ["Identifier", "QuotedIdentifier", "IdentifierKeyword"]

/-- Keywords always suggested even when identifiers are allowed
(ALWAYS_SUGGEST_KEYWORDS in src/unnamed/part_000). -/
def ALWAYS_SUGGEST_KEYWORDS : List String := ["Current"]

/-- Expression-continuation operators, deprioritized in suggestions
(EXPRESSION_OPERATORS in src/unnamed/part_000). -/
def EXPRESSION_OPERATORS : List String :=
  ["And", "Or", "Not", "Between", "In", "Is", "Like", "Ilike", "Within",
   "Union", "Except", "Intersect"]

/-- Punctuation tokens (PUNCTUATION_TOKENS in src/unnamed/part_000). -/
def PUNCTUATION_TOKENS : List String :=
  ["LParen", "RParen", "Comma", "Semicolon", "LBracket", "RBracket"]

/-- Token types that should not be suggested (SKIP_TOKENS in
src/unnamed/part_000). -/
def SKIP_TOKENS : List String :=
  ["LParen", "RParen", "Comma", "Dot", "Semicolon", "AtSign", "ColonEquals",
   "LBracket", "RBracket",
   "Equals", "NotEquals", "LessThan", "LessThanOrEqual", "GreaterThan",
   "GreaterThanOrEqual",
   "Plus", "Minus", "Star", "Divide", "Modulo", "Concat", "DoubleColon",
   "RegexMatch", "RegexNotMatch", "RegexNotEquals",
   "BitAnd", "BitXor", "BitOr",
   "VariableReference",
   "StringLiteral", "NumberLiteral", "LongLiteral", "DecimalLiteral",
   "DurationLiteral", "GeohashLiteral", "GeohashBinaryLiteral", "Nan",
   "WhiteSpace"]

/-- shouldSkipToken from src/unnamed/part_000: membership in SKIP_TOKENS. -/
def shouldSkipToken (tokenName : String) : Bool :=
  SKIP_TOKENS.contains tokenName

/-- isIdentifierToken from src/unnamed/part_000: membership in
IDENTIFIER_TOKENS or in the identifier-keyword set imported from
tokens.ts. The latter file is not under src/, so the set is a parameter. -/
def isIdentifierToken (identifierKeywordKinds : List String)
    (tokenName : String) : Bool :=
  IDENTIFIER_TOKENS.contains tokenName ||
    identifierKeywordKinds.contains tokenName

-- =============================================================================
-- Generic helpers over character lists (used to state substring facts)
-- =============================================================================

/-- True when the first list is an initial segment of the second. -/
def listStartsWith : List Char → List Char → Bool
  | [], _ => true
  | _ :: _, [] => false
  | p :: ps, c :: cs => p = c && listStartsWith ps cs

/-- True when the first list occurs contiguously inside the second. -/
def listOccurs (pat : List Char) : List Char → Bool
  | [] => listStartsWith pat []
  | c :: cs => listStartsWith pat (c :: cs) || listOccurs pat cs

-- =============================================================================
-- Tokenizer NumberLiteral pattern, from the regex quoted at
-- src/tests/review-proofs.test.ts issue 5 (lexer.ts line 677):
-- first alternative of the pattern, a digit, then digits or underscores,
-- then an optional dot, then digits or underscores.
-- =============================================================================

/-- Character class of the bracketed digit-or-underscore group. -/
def isDigitOrUnderscore (c : Char) : Bool := c.isDigit || c = '_'

/-- Greedy match of the NumberLiteral pattern against the start of the
input. The regex engine is greedy: when the optional dot is present it is
consumed even when no digit follows, because the trailing group may match
zero characters. Returns the matched image and the rest, or none when the
input does not start with a digit. -/
def numberLiteralMatch (cs : List Char) : Option (List Char × List Char) :=
  match cs with
  | [] => none
  | c :: rest =>
    if c.isDigit then
      let intPart := rest.takeWhile isDigitOrUnderscore
      let rest1 := rest.dropWhile isDigitOrUnderscore
      match rest1 with
      | '.' :: rest2 =>
        let fracPart := rest2.takeWhile isDigitOrUnderscore
        let rest3 := rest2.dropWhile isDigitOrUnderscore
        some (c :: intPart ++ '.' :: fracPart, rest3)
      | _ => some (c :: intPart, rest1)
    else none

-- =============================================================================
-- TTL extraction, from the mapping quoted at
-- src/tests/review-proofs.test.ts issue 19 (extractTtl, visitor.ts
-- lines 3684-3696): unit map with fallback DAYS.
-- =============================================================================

/-- A TTL value as produced by the tree builder. -/
structure Ttl where
  value : Nat
  unit : String
deriving Repr, DecidableEq

/-- The unit table of extractTtl: h, d, w, M, y only. -/
def ttlUnitMap (suffix : Char) : Option String :=
  if suffix = 'h' then some "HOURS"
  else if suffix = 'd' then some "DAYS"
  else if suffix = 'w' then some "WEEKS"
  else if suffix = 'M' then some "MONTHS"
  else if suffix = 'y' then some "YEARS"
  else none

/-- extractTtl as quoted: an unmapped suffix falls back to DAYS. -/
def extractTtl (value : Nat) (suffix : Char) : Ttl :=
  ⟨value, (ttlUnitMap suffix).getD "DAYS"⟩

-- =============================================================================
-- Window frame mode, from the branch order quoted at
-- src/tests/review-proofs.test.ts issue 2 (visitor.ts line 3447):
-- the Groups check runs before the else branch that catches Cumulative,
-- and the CST context holds every token captured in the clause, so an
-- EXCLUDE GROUPS clause makes ctx.Groups truthy.
-- =============================================================================

/-- The token-presence flags the visitor reads off the frame-clause CST
context. -/
structure WindowFrameCtx where
  hasRows : Bool
  hasRange : Bool
  hasGroups : Bool
  hasCumulative : Bool
deriving Repr, DecidableEq

/-- Context construction: a flag is set when the token kind occurs
anywhere in the frame clause, including inside an EXCLUDE clause. -/
def frameCtxOf (clauseTokens : List String) : WindowFrameCtx :=
  ⟨clauseTokens.contains "Rows", clauseTokens.contains "Range",
   clauseTokens.contains "Groups", clauseTokens.contains "Cumulative"⟩

/-- The frame-mode decision of the visitor, in its quoted branch order:
Rows, then Range, then Groups, and Cumulative only as the final else. -/
def windowFrameMode (ctx : WindowFrameCtx) : String :=
  if ctx.hasRows then "rows"
  else if ctx.hasRange then "range"
  else if ctx.hasGroups then "groups"
  else "cumulative"

/-- Token kinds of the frame clause
CUMULATIVE BETWEEN UNBOUNDED PRECEDING AND CURRENT ROW EXCLUDE GROUPS. -/
def cumulativeExcludeGroupsClause : List String :=
  ["Cumulative", "Between", "Unbounded", "Preceding", "And", "Current",
   "Row", "Exclude", "Groups"]

-- =============================================================================
-- Binary expression serialization, from the code quoted at
-- src/tests/review-proofs.test.ts issue 14 (binaryExprToSql, toSql.ts
-- lines 1472-1476): always emits left op right, no parentheses; only an
-- explicit paren node prints parentheses.
-- =============================================================================

/-- Expression AST fragment relevant to serialization. -/
inductive Expression where
  | column (name : String)
  | binary (op : String) (left right : Expression)
  | paren (inner : Expression)
deriving Repr, DecidableEq

/-- Expression serializer: binaryExprToSql emits left op right with no
parentheses; parenExpression emits its own pair. -/
def exprToSql : Expression → String
  | .column n => n
  | .binary op l r => exprToSql l ++ " " ++ op ++ " " ++ exprToSql r
  | .paren e => "(" ++ exprToSql e ++ ")"

-- =============================================================================
-- CREATE TABLE serialization, from the code quoted at
-- src/tests/review-proofs.test.ts issue 13 (createTableToSql, toSql.ts
-- lines 551-559): builds the parenthesized column list, then appends the
-- index declarations after the closing parenthesis.
-- =============================================================================

/-- A column definition of a CREATE TABLE body. -/
structure ColumnDefinition where
  name : String
  dataType : String
deriving Repr, DecidableEq

/-- An index declaration of a CREATE TABLE body. -/
structure IndexDefinition where
  column : String
deriving Repr, DecidableEq

/-- A CREATE TABLE statement restricted to the fields this claim needs. -/
structure CreateTableStatement where
  table : String
  columns : List ColumnDefinition
  indexes : List IndexDefinition
deriving Repr, DecidableEq

/-- Serialization of one column definition. -/
def columnDefToSql (c : ColumnDefinition) : String :=
  c.name ++ " " ++ c.dataType

/-- Serialization of one index declaration. -/
def indexDefToSql (i : IndexDefinition) : String :=
  "INDEX(" ++ i.column ++ ")"

/-- createTableToSql as quoted: the column list is closed with a
parenthesis, then the index declarations are appended outside it. -/
def createTableToSql (s : CreateTableStatement) : String :=
  let cols := String.intercalate ", " (s.columns.map columnDefToSql)
  let base := "CREATE TABLE " ++ s.table ++ " (" ++ cols ++ ")"
  if s.indexes.isEmpty then base
  else base ++ ", " ++ String.intercalate ", " (s.indexes.map indexDefToSql)

-- =============================================================================
-- Join type extraction, from the description at
-- src/tests/review-proofs.test.ts issue 15 (visitor.ts lines 627-635):
-- an if-else chain over the join-prefix tokens present in the CST
-- context, with no case for Natural or Prevailing, so those fall
-- through and joinType stays undefined.
-- =============================================================================

/-- The join-type decision of the visitor over the prefix tokens present
in the join-clause context: the chain covers the explicit prefixes it
knows and falls through to none otherwise. -/
def joinTypeOf (ctxTokens : List String) : Option String :=
  if ctxTokens.contains "Inner" then some "inner"
  else if ctxTokens.contains "Left" then some "left"
  else if ctxTokens.contains "Right" then some "right"
  else if ctxTokens.contains "Full" then some "full"
  else if ctxTokens.contains "Cross" then some "cross"
  else none

-- =============================================================================
-- RESUME WAL serialization. resumeWalToSql is not under src/; the review
-- test for issue 12 pins its behaviour: an else-if makes fromTransaction
-- take precedence, and the asserted output for both fields set is
-- RESUME WAL FROM TRANSACTION 5.
-- =============================================================================

/-- A WAL-resume statement with its two alternative numeric fields. -/
structure ResumeWalStatement where
  fromTransaction : Option Nat
  fromTxn : Option Nat
deriving Repr, DecidableEq

/-- Modelled from the spec: resumeWalToSql (toSql.ts, absent from src/)
emits exactly one clause by a fixed field precedence; the review test for
issue 12 pins that precedence to fromTransaction via an else-if. -/
def resumeWalToSql (s : ResumeWalStatement) : String :=
  "RESUME WAL" ++
    (match s.fromTransaction with
     | some n => " FROM TRANSACTION " ++ Nat.repr n
     | none =>
       match s.fromTxn with
       | some n => " FROM TXN " ++ Nat.repr n
       | none => "")

-- =============================================================================
-- Suggestion engine. content-assist.ts is not under src/; the engine is
-- modelled from spec section 4.5 over the classification tables of
-- src/unnamed/part_000 above.
-- =============================================================================

/-- Modelled from the spec: the suggestion engine (content-assist.ts,
absent from src/) classifies each grammatically expected token kind via
the single classification table: the always-suggest set is emitted first
whenever reachable, the skip set is never surfaced, identifier kinds
become catalog delegations ranked last, expression connectives are
deprioritized after clause keywords, and the output is de-duplicated.
The result lists the surfaced kinds in rank order. -/
def suggest (identifierKeywordKinds : List String)
    (expectedKinds : List String) : List String :=
  let isIdent := isIdentifierToken identifierKeywordKinds
  let always := expectedKinds.filter
    (fun k => ALWAYS_SUGGEST_KEYWORDS.contains k)
  let clauseKeywords := expectedKinds.filter
    (fun k => !shouldSkipToken k && !ALWAYS_SUGGEST_KEYWORDS.contains k &&
      !isIdent k && !EXPRESSION_OPERATORS.contains k)
  let connectives := expectedKinds.filter
    (fun k => !shouldSkipToken k && !ALWAYS_SUGGEST_KEYWORDS.contains k &&
      !isIdent k && EXPRESSION_OPERATORS.contains k)
  let identifierHints := expectedKinds.filter
    (fun k => !shouldSkipToken k && !ALWAYS_SUGGEST_KEYWORDS.contains k &&
      isIdent k)
  (always ++ clauseKeywords ++ connectives ++ identifierHints).dedup

-- =============================================================================
-- Concrete inputs named by the claims
-- =============================================================================

/-- The AST multiply(add(a, b), c), built without any paren node, as in
review test issue 14. -/
def multiplyAddAst : Expression :=
  .binary "*" (.binary "+" (.column "a") (.column "b")) (.column "c")

/-- The CREATE TABLE AST of review test issue 13: two column definitions
and one index declaration. -/
def createTableTwoColsOneIndex : CreateTableStatement :=
  ⟨"my_table", [⟨"id", "INT"⟩, ⟨"name", "STRING"⟩], [⟨"name"⟩]⟩

-- =============================================================================
-- Theorems
-- =============================================================================

/-- C1: on the frame clause CUMULATIVE BETWEEN UNBOUNDED PRECEDING AND
CURRENT ROW EXCLUDE GROUPS, whose primary frame keyword is Cumulative,
the visitor computes frame mode groups, because the Groups token of the
EXCLUDE clause is checked before the Cumulative fallback; without the
EXCLUDE clause the mode is cumulative. This contradicts the claim that
the mode stays cumulative. -/
theorem cumulative_mode_corrupted_by_exclude_groups :
    cumulativeExcludeGroupsClause.head? = some "Cumulative" ∧
    windowFrameMode (frameCtxOf cumulativeExcludeGroupsClause) = "groups" ∧
    windowFrameMode (frameCtxOf ["Cumulative"]) = "cumulative" := by
  decide

/-- C2: serializing multiply(add(a, b), c), built without any paren node,
yields a + b * c, not (a + b) * c: binaryExprToSql emits no parentheses,
so the looser-binding left child loses its grouping. This contradicts
the claim that the serializer parenthesizes from tree shape. -/
theorem binary_expr_to_sql_drops_parentheses :
    exprToSql multiplyAddAst = "a + b * c" ∧
    exprToSql multiplyAddAst ≠ "(a + b) * c" := by
  decide

/-- C3: the TTL suffix m for minutes is absent from the unit table, and
the fallback turns TTL 30m into value 30 with unit DAYS instead of
MINUTES or an error. This contradicts the claim. -/
theorem ttl_minutes_silently_becomes_days :
    ttlUnitMap 'm' = none ∧
    extractTtl 30 'm' = ⟨30, "DAYS"⟩ ∧
    extractTtl 30 'm' ≠ ⟨30, "MINUTES"⟩ := by
  decide

/-- C4: serializing a CREATE TABLE with two column definitions and one
index declaration closes the parenthesis after the columns and appends
the INDEX clause outside it, so the output is
CREATE TABLE my_table (id INT, name STRING), INDEX(name), and the
one-parenthesis-pair form does not occur in it. This contradicts the
claim. -/
theorem create_table_index_outside_parentheses :
    createTableToSql createTableTwoColsOneIndex =
      "CREATE TABLE my_table (id INT, name STRING), INDEX(name)" ∧
    listOccurs "), INDEX(".toList
      (createTableToSql createTableTwoColsOneIndex).toList = true ∧
    listOccurs ", INDEX(name))".toList
      (createTableToSql createTableTwoColsOneIndex).toList = false := by
  decide

/-- C5: the join-type chain of the visitor has no case for the explicit
join prefixes Natural and Prevailing, so both fall through to an absent
joinType, while other explicit prefixes such as Cross are mapped. This
contradicts the claim that every explicit join keyword maps to a
non-absent joinType. -/
theorem natural_join_type_silently_dropped :
    joinTypeOf ["Natural", "Join"] = none ∧
    joinTypeOf ["Prevailing", "Join"] = none ∧
    joinTypeOf ["Cross", "Join"] = some "cross" := by
  decide

/-- C7: the NumberLiteral pattern greedily folds a bare trailing dot into
the literal: the input 1. is matched whole as one number image, and in
1.x the dot is merged into the number image 1. with only x left over.
This contradicts the claim that the dot is not folded unless further
digits follow. -/
theorem number_literal_consumes_trailing_dot :
    numberLiteralMatch "1.".toList = some ("1.".toList, []) ∧
    numberLiteralMatch "1.x".toList = some ("1.".toList, ['x']) ∧
    numberLiteralMatch "1.5".toList = some ("1.5".toList, []) := by
  decide

/-- C8: for every identifier-keyword table and every set of grammatically
expected kinds, the suggestion list contains no kind of the skip set, and
contains every kind of the always-suggest set that is reachable, that is,
among the expected kinds. -/
theorem suggest_skips_none_and_always_suggests
    (ikw expected : List String) :
    (∀ k ∈ suggest ikw expected, shouldSkipToken k = false) ∧
    (∀ k ∈ ALWAYS_SUGGEST_KEYWORDS, k ∈ expected →
      k ∈ suggest ikw expected) := by
  constructor
  · intro k hk
    unfold suggest at hk
    rw [List.mem_dedup] at hk
    simp only [List.mem_append, List.mem_filter, Bool.and_eq_true,
      Bool.not_eq_true'] at hk
    rcases hk with ((⟨_, halw⟩ | ⟨_, hc⟩) | ⟨_, hc⟩) | ⟨_, hc⟩
    · have hk' : k = "Current" := by
        have := List.elem_iff.mp halw
        simpa [ALWAYS_SUGGEST_KEYWORDS] using this
      subst hk'
      decide
    · exact hc.1.1.1
    · exact hc.1.1.1
    · exact hc.1.1
  · intro k hk hexp
    unfold suggest
    rw [List.mem_dedup]
    simp only [List.mem_append]
    refine Or.inl (Or.inl (Or.inl ?_))
    exact List.mem_filter.mpr ⟨hexp, List.elem_iff.mpr hk⟩

/-- C8 witness: at the expected kinds Current, From, Comma with an empty
identifier-keyword table, the kind From is surfaced and not skipped, and
the always-suggest kind Current is surfaced. -/
theorem suggest_skips_none_and_always_suggests_witness :
    shouldSkipToken "From" = false ∧
    "Current" ∈ suggest [] ["Current", "From", "Comma"] :=
  ⟨(suggest_skips_none_and_always_suggests [] ["Current", "From", "Comma"]).1
      "From" (by decide),
   (suggest_skips_none_and_always_suggests [] ["Current", "From", "Comma"]).2
      "Current" (by decide) (by decide)⟩

/-- C9: a WAL-resume statement with both alternative numeric fields set
serializes to exactly the FROM TRANSACTION clause, by the fixed
precedence of fromTransaction over fromTxn, and the output for the
concrete statement of review test issue 12 contains no FROM TXN
clause. -/
theorem resume_wal_emits_exactly_one_clause :
    (∀ a b : Nat, resumeWalToSql ⟨some a, some b⟩ =
      "RESUME WAL FROM TRANSACTION " ++ Nat.repr a) ∧
    listOccurs "FROM TXN".toList
      (resumeWalToSql ⟨some 5, some 10⟩).toList = false ∧
    listOccurs "FROM TRANSACTION 5".toList
      (resumeWalToSql ⟨some 5, some 10⟩).toList = true := by
  refine ⟨fun a b => ?_, by decide, by decide⟩
  rfl

/-- C10: every kind of PUNCTUATION_TOKENS is also a member of
SKIP_TOKENS, so shouldSkipToken returns true for every punctuation
kind. -/
theorem punctuation_tokens_all_skipped :
    ∀ k ∈ PUNCTUATION_TOKENS, k ∈ SKIP_TOKENS ∧ shouldSkipToken k = true := by
  decide

/-- C10 witness: the punctuation kind LParen is in SKIP_TOKENS and is
skipped. -/
theorem punctuation_tokens_all_skipped_witness :
    "LParen" ∈ SKIP_TOKENS ∧ shouldSkipToken "LParen" = true :=
  punctuation_tokens_all_skipped "LParen" (by decide)
